import Mathlib

/-!
Shallow embedding of the two subsystems targeted by the specification of
this repository: the State-pattern character controller
(src/include/behavioral/state.h) and the Strategy-pattern AI behavior
selector (src/include/behavioral/strategy.h).

Modelling conventions:
* C++ `float` values (positions, speeds, timers) are modelled as exact
  rationals `ℚ`; every comparison exercised by the theorems below is far
  from any float-representability boundary.
* C++ `int` values (health, mana) are modelled as `ℤ`.
* `std::sqrt` is modelled by `ratSqrt`, which is exact whenever the
  radicand is a perfect square of a natural number (the only case the
  evaluations below exercise) and is used symbolically everywhere else.
* The per-instance private timers of the live state/behavior objects
  (`AttackingState::attackTimer`, `CastingState::castTimer`,
  `AttackBehavior::lastAttackTime`, `DefendBehavior::defendTimer`) are kept
  as record fields; every transition installs a freshly constructed
  instance and the enter hooks reset these timers, so this is an exact
  model of the object-per-transition scheme of the source.
* The function-local `static size_t currentWaypoint` of `AIEnemy::patrol`
  is process-global mutable state in the source; it is threaded explicitly
  through every function that can reach `patrol`.
-/

/-- Square root on rationals: integer square root of numerator and
denominator. Exact whenever the argument is a perfect square of a natural
number, which holds at every input the concrete evaluations below reach;
stands in for `std::sqrt` on the real-valued reading of `float`. -/
def ratSqrt (q : ℚ) : ℚ := (Nat.sqrt q.num.toNat : ℚ) / (Nat.sqrt q.den : ℚ)

/-- Truncation toward zero, the semantics of C++ `static_cast<int>` applied
to a non-negative-or-negative float value. -/
def cppTrunc (q : ℚ) : ℤ := if 0 ≤ q then ⌊q⌋ else ⌈q⌉

namespace StatePattern

/-- The closed set of states registered by `initializeStates`
(state.h lines 412-418). -/
inductive StateTag
  | idle
  | walking
  | jumping
  | attacking
  | casting
deriving DecidableEq

/-- `StateCharacter` (state.h lines 31-114): the context object of the
state machine, together with the private timers of the live state instance
(`AttackingState::attackTimer`, `CastingState::castTimer`). `currentState`
is `none` only before the constructor's initial `setState("idle")`. -/
structure StateCharacter where
  charName : String
  x : ℚ
  y : ℚ
  health : ℤ
  maxHealth : ℤ
  moveSpeed : ℚ
  isGrounded : Bool
  jumpVelocity : ℚ
  mana : ℤ
  maxMana : ℤ
  currentState : Option StateTag
  attackTimer : ℚ
  castTimer : ℚ
deriving DecidableEq

/-- `WalkingState::walkSpeed` (state.h line 172). -/
def walkSpeed : ℚ := 100

/-- `JumpingState::jumpForce` (state.h line 221). -/
def jumpForce : ℚ := 300

/-- `JumpingState::gravity` (state.h line 222). -/
def gravity : ℚ := -500

/-- `AttackingState::attackDuration` (state.h line 279). -/
def attackDuration : ℚ := 1/2

/-- `CastingState::castDuration` (state.h line 332). -/
def castDuration : ℚ := 1

/-- `CastingState::manaCost` (state.h line 334). -/
def manaCost : ℤ := 10

/-- The state registry built by `initializeStates` via `StateFactory`:
maps a state name to its tag, `none` for unknown names. The registry
always holds exactly these five names (`createStateInstance` refills the
slot consumed by each transition). -/
def lookupState : String → Option StateTag
  | "idle" => some .idle
  | "walking" => some .walking
  | "jumping" => some .jumping
  | "attacking" => some .attacking
  | "casting" => some .casting
  | _ => none

/-- `getStateName` of each concrete state class. -/
def getStateName : StateTag → String
  | .idle => "idle"
  | .walking => "walking"
  | .jumping => "jumping"
  | .attacking => "attacking"
  | .casting => "casting"

/-- `canTransitionTo` of each concrete state class
(state.h lines 162-166, 213-215, 271-273, 317-320, 377-379). -/
def canTransitionTo : StateTag → String → Bool
  | .idle, s => s == "walking" || s == "jumping" || s == "attacking" || s == "casting"
  | .walking, s => s == "idle" || s == "jumping" || s == "attacking"
  | .jumping, s => s == "idle" || s == "attacking"
  | .attacking, s => s == "idle" || s == "jumping"
  | .casting, s => s == "idle" || s == "walking"

/-- `StateCharacter::setMana` (state.h line 110): clamps to `[0, maxMana]`. -/
def setMana (c : StateCharacter) (mp : ℤ) : StateCharacter :=
  { c with mana := max 0 (min c.maxMana mp) }

/-- `StateCharacter::setHealth` (state.h line 98): clamps to `[0, maxHealth]`. -/
def setHealth (c : StateCharacter) (hp : ℤ) : StateCharacter :=
  { c with health := max 0 (min c.maxHealth hp) }

/-- `StateCharacter::move` (state.h line 95). -/
def move (c : StateCharacter) (dx dy : ℚ) : StateCharacter :=
  { c with x := c.x + dx, y := c.y + dy }

/-- The `onExit` hooks (state.h lines 156-158, 207-209, 265-267, 311-313,
368-373): only `WalkingState::onExit` changes the character
(`setMoveSpeed(0)`); the others only play animations or sounds. -/
def onExit (t : StateTag) (c : StateCharacter) : StateCharacter :=
  match t with
  | .idle => c
  | .walking => { c with moveSpeed := 0 }
  | .jumping => c
  | .attacking => c
  | .casting => c

/-- The `onEnter` hooks (state.h lines 150-154, 202-205, 258-263, 301-309,
354-366). `CastingState::onEnter` with insufficient mana calls
`setState("idle")` on the spot; that inner call's guard
`canTransitionTo(casting, "idle")` always holds and `CastingState::onExit`
at `castTimer = 0` changes nothing, so the inner call reduces to swapping
to idle and running idle's enter hook — which is inlined here. -/
def onEnter (t : StateTag) (c : StateCharacter) : StateCharacter :=
  match t with
  | .idle => { c with moveSpeed := 0 }
  | .walking => { c with moveSpeed := walkSpeed }
  | .jumping => { c with isGrounded := false, jumpVelocity := jumpForce }
  | .attacking => { c with attackTimer := 0, moveSpeed := 0 }
  | .casting =>
      let c1 := { c with castTimer := 0, moveSpeed := 0 }
      if c1.mana < manaCost then
        { c1 with currentState := some .idle, moveSpeed := 0 }
      else c1

/-- `StateCharacter::setState` (state.h lines 68-84): look the name up in
the registry; if found and the guard accepts, run the old state's exit
hook, swap, run the new state's enter hook (`createStateInstance` then
refills the registry slot, which the timer-reset convention of this model
already accounts for). Otherwise the call does nothing. -/
def setState (c : StateCharacter) (stateName : String) : StateCharacter :=
  match lookupState stateName with
  | none => c
  | some t =>
    match c.currentState with
    | none => onEnter t { c with currentState := some t }
    | some cur =>
      if canTransitionTo cur stateName then
        onEnter t { (onExit cur c) with currentState := some t }
      else c

/-- The guard of `setState` as the specification words it: the name is
registered, and either no current state exists or the current state's
`canTransitionTo` accepts the target. -/
def stateGuard (c : StateCharacter) (stateName : String) : Bool :=
  match lookupState stateName, c.currentState with
  | none, _ => false
  | some _, none => true
  | some _, some cur => canTransitionTo cur stateName

/-- The exit-hook → swap → enter-hook sequence of a successful `setState`. -/
def transitionTo (c : StateCharacter) (t : StateTag) : StateCharacter :=
  let c1 := match c.currentState with
    | none => c
    | some cur => onExit cur c
  onEnter t { c1 with currentState := some t }

/-- `CastingState::castSpell` (state.h lines 382-389): deduct the mana
cost (clamped by `setMana`). -/
def castSpell (c : StateCharacter) : StateCharacter :=
  setMana c (c.mana - manaCost)

/-- `IdleState::update` (state.h lines 141-148): below 50 mana, add
`static_cast<int>(5 * deltaTime)` mana. -/
def idleUpdate (c : StateCharacter) (deltaTime : ℚ) : StateCharacter :=
  if c.mana < 50 then setMana c (c.mana + cppTrunc (5 * deltaTime)) else c

/-- `WalkingState::update` (state.h lines 197-200): no effect. -/
def walkingUpdate (c : StateCharacter) (_deltaTime : ℚ) : StateCharacter := c

/-- `JumpingState::update` (state.h lines 240-256): integrate gravity into
the vertical velocity, integrate the position with the updated velocity,
and on `y ≤ 0` clamp to the ground, set grounded, zero the velocity and
transition to idle. -/
def jumpingUpdate (c : StateCharacter) (deltaTime : ℚ) : StateCharacter :=
  let v := c.jumpVelocity + gravity * deltaTime
  let c1 := { c with jumpVelocity := v, y := c.y + v * deltaTime }
  if c1.y ≤ 0 then
    setState { c1 with y := 0, isGrounded := true, jumpVelocity := 0 } "idle"
  else c1

/-- `AttackingState::update` (state.h lines 288-299): accumulate the
timer; once the attack duration has elapsed, go to idle when grounded and
to jumping otherwise. -/
def attackingUpdate (c : StateCharacter) (deltaTime : ℚ) : StateCharacter :=
  let c1 := { c with attackTimer := c.attackTimer + deltaTime }
  if attackDuration ≤ c1.attackTimer then
    if c1.isGrounded then setState c1 "idle" else setState c1 "jumping"
  else c1

/-- `CastingState::update` (state.h lines 344-352): accumulate the timer;
once the cast duration has elapsed, apply `castSpell` and go to idle. -/
def castingUpdate (c : StateCharacter) (deltaTime : ℚ) : StateCharacter :=
  let c1 := { c with castTimer := c.castTimer + deltaTime }
  if castDuration ≤ c1.castTimer then setState (castSpell c1) "idle" else c1

/-- `StateCharacter::update` (state.h lines 62-66): dispatch to the
current state's update; without a current state, do nothing. -/
def update (c : StateCharacter) (deltaTime : ℚ) : StateCharacter :=
  match c.currentState with
  | none => c
  | some .idle => idleUpdate c deltaTime
  | some .walking => walkingUpdate c deltaTime
  | some .jumping => jumpingUpdate c deltaTime
  | some .attacking => attackingUpdate c deltaTime
  | some .casting => castingUpdate c deltaTime

/-- `StateCharacter::handleInput` (state.h lines 56-60) dispatching to the
per-state `handleInput` handlers (state.h lines 119-139, 175-195, 225-238,
283-286, 337-342). -/
def handleInput (c : StateCharacter) (inputCode : ℤ) : StateCharacter :=
  match c.currentState with
  | none => c
  | some .idle =>
      if inputCode = 65 ∨ inputCode = 68 then setState c "walking"
      else if inputCode = 32 then
        (if c.isGrounded then setState c "jumping" else c)
      else if inputCode = 74 then setState c "attacking"
      else if inputCode = 75 then
        (if manaCost ≤ c.mana then setState c "casting" else c)
      else c
  | some .walking =>
      if inputCode = 65 then move c (-(walkSpeed * (16/1000))) 0
      else if inputCode = 68 then move c (walkSpeed * (16/1000)) 0
      else if inputCode = 32 then
        (if c.isGrounded then setState c "jumping" else c)
      else if inputCode = 74 then setState c "attacking"
      else if inputCode = 0 then setState c "idle"
      else c
  | some .jumping =>
      if inputCode = 65 then move c (-(50 * (16/1000))) 0
      else if inputCode = 68 then move c (50 * (16/1000)) 0
      else if inputCode = 74 then setState c "attacking"
      else c
  | some .attacking => c
  | some .casting =>
      if inputCode = 65 ∨ inputCode = 68 then setState c "walking" else c

/-- The `StateCharacter` constructor (state.h lines 46-52): default
attributes, then `initializeStates` and `setState("idle")`. -/
def makeCharacter (charName : String) : StateCharacter :=
  setState
    { charName := charName, x := 0, y := 0, health := 100, maxHealth := 100,
      moveSpeed := 100, isGrounded := true, jumpVelocity := 0,
      mana := 50, maxMana := 50, currentState := none,
      attackTimer := 0, castTimer := 0 } "idle"

/-- Iterated `update` over a list of frame times. -/
def applyUpdates (c : StateCharacter) : List ℚ → StateCharacter
  | [] => c
  | dt :: rest => applyUpdates (update c dt) rest

/-- The direct integration the specification demands of the Jumping state
(spec §8): `v = v + g*dt` then `y = y + v*dt`, ignoring the ground. -/
def jumpIntegration (y v : ℚ) : List ℚ → ℚ × ℚ
  | [] => (y, v)
  | dt :: rest => jumpIntegration (y + (v + gravity * dt) * dt) (v + gravity * dt) rest

end StatePattern

namespace StrategyPattern

/-- The closed set of behavior strategies (strategy.h lines 142-288). -/
inductive BKind
  | patrol
  | chase
  | attack
  | flee
  | defend
  | berserk
deriving DecidableEq

/-- `PatrolBehavior`'s waypoint rectangle, used by `initializeBehaviors`
and `forceBehavior` (strategy.h lines 306-308, 316-318, 378-380). -/
def defaultWaypoints : List (ℚ × ℚ) := [(0, 0), (100, 0), (100, 100), (0, 100)]

/-- A concrete behavior instance: its kind plus the private data of the
concrete classes (`PatrolBehavior::waypoints`,
`AttackBehavior::lastAttackTime`, `DefendBehavior::defendTimer`); each
field is meaningful only for its own kind and newly constructed instances
start the timers at zero. -/
structure Behavior where
  kind : BKind
  waypoints : List (ℚ × ℚ)
  lastAttackTime : ℚ
  defendTimer : ℚ
deriving DecidableEq

/-- A freshly constructed behavior instance, as created by
`make_unique<...Behavior>()` on every switch (with `forceBehavior` and
`initializeBehaviors` passing the default waypoint rectangle to
`PatrolBehavior`). -/
def freshBehavior (k : BKind) : Behavior :=
  { kind := k, waypoints := defaultWaypoints, lastAttackTime := 0, defendTimer := 0 }

/-- `AIEnemy` (strategy.h lines 25-139). -/
structure AIEnemy where
  enemyName : String
  x : ℚ
  y : ℚ
  health : ℤ
  maxHealth : ℤ
  speed : ℚ
  detectionRange : ℚ
  attackRange : ℚ
  targetX : ℚ
  targetY : ℚ
  hasTarget : Bool
  currentBehavior : Option Behavior
deriving DecidableEq

/-- `AttackBehavior::attackCooldown` (strategy.h line 189). -/
def attackCooldown : ℚ := 1

/-- `DefendBehavior::defendDuration` (strategy.h line 235). -/
def defendDuration : ℚ := 2

/-- The `AIEnemy` constructor (strategy.h lines 40-43). -/
def makeEnemy (enemyName : String) (posX posY : ℚ) : AIEnemy :=
  { enemyName := enemyName, x := posX, y := posY, health := 100, maxHealth := 100,
    speed := 50, detectionRange := 100, attackRange := 30,
    targetX := 0, targetY := 0, hasTarget := false, currentBehavior := none }

/-- `AIEnemy::setBehavior` (strategy.h lines 45-47). -/
def AIEnemy.setBehavior (e : AIEnemy) (b : Behavior) : AIEnemy :=
  { e with currentBehavior := some b }

/-- `AIEnemy::getDistanceToTarget` (strategy.h lines 129-134). -/
def AIEnemy.getDistanceToTarget (e : AIEnemy) : ℚ :=
  if e.hasTarget then
    ratSqrt ((e.targetX - e.x) * (e.targetX - e.x) + (e.targetY - e.y) * (e.targetY - e.y))
  else -1

/-- `AIEnemy::moveTowards` (strategy.h lines 56-68): normalize the
displacement and advance by `speed * deltaTime`, unless within one unit of
the target. -/
def AIEnemy.moveTowards (e : AIEnemy) (tX tY deltaTime : ℚ) : AIEnemy :=
  let dx := tX - e.x
  let dy := tY - e.y
  let distance := ratSqrt (dx * dx + dy * dy)
  if 1 < distance then
    { e with x := e.x + dx / distance * e.speed * deltaTime,
             y := e.y + dy / distance * e.speed * deltaTime }
  else e

/-- `AIEnemy::patrol` (strategy.h lines 70-84). `cw` threads the
function-local `static size_t currentWaypoint`, a single counter shared by
every caller of `patrol` in the process and never reset; it advances when
the enemy ends the step within 5 units of the current waypoint. -/
def AIEnemy.patrol (e : AIEnemy) (waypoints : List (ℚ × ℚ)) (deltaTime : ℚ)
    (cw : ℕ) : AIEnemy × ℕ :=
  match waypoints with
  | [] => (e, cw)
  | _ :: _ =>
    let target := waypoints.getD (cw % waypoints.length) (0, 0)
    let e1 := e.moveTowards target.1 target.2 deltaTime
    let dx := target.1 - e1.x
    let dy := target.2 - e1.y
    if dx * dx + dy * dy < 25 then (e1, cw + 1) else (e1, cw)

/-- `AIEnemy::flee` (strategy.h lines 92-104): move directly away from the
given point at 1.5 times the nominal speed. -/
def AIEnemy.flee (e : AIEnemy) (fromX fromY deltaTime : ℚ) : AIEnemy :=
  let dx := e.x - fromX
  let dy := e.y - fromY
  let distance := ratSqrt (dx * dx + dy * dy)
  if 0 < distance then
    { e with x := e.x + dx / distance * e.speed * 1.5 * deltaTime,
             y := e.y + dy / distance * e.speed * 1.5 * deltaTime }
  else e

/-- `getBehaviorName` of each concrete behavior class. -/
def getBehaviorName : BKind → String
  | .patrol => "巡逻"
  | .chase => "追击"
  | .attack => "攻击"
  | .flee => "逃跑"
  | .defend => "防御"
  | .berserk => "狂暴"

/-- `AIEnemy::getCurrentBehaviorName` (strategy.h lines 136-138). -/
def AIEnemy.getCurrentBehaviorName (e : AIEnemy) : String :=
  match e.currentBehavior with
  | some b => getBehaviorName b.kind
  | none => "无行为"

/-- The ratio `static_cast<float>(getHealth()) / getMaxHealth()` used by
the eligibility predicates. -/
def healthPercent (e : AIEnemy) : ℚ := (e.health : ℚ) / (e.maxHealth : ℚ)

/-- The `canExecute` eligibility predicates of the six behavior classes
(strategy.h lines 157-160, 180-183, 206-209, 225-229, 255-259, 283-287). -/
def canExecute (k : BKind) (e : AIEnemy) : Bool :=
  match k with
  | .patrol => decide (0 < e.health)
  | .chase =>
      decide (0 < e.health) && e.hasTarget &&
        decide (e.attackRange < e.getDistanceToTarget)
  | .attack =>
      decide (0 < e.health) && e.hasTarget &&
        decide (e.getDistanceToTarget ≤ e.attackRange)
  | .flee => decide (0 < e.health) && decide (healthPercent e < 0.3)
  | .defend =>
      decide (0 < e.health) && decide (0.3 ≤ healthPercent e) &&
        decide (healthPercent e ≤ 0.6)
  | .berserk => decide (0 < e.health) && decide (healthPercent e < 0.2)

/-- The `execute` routines of the six behavior classes (strategy.h lines
149-151, 170-174, 193-200, 215-219, 239-249, 265-277), returning the
updated enemy, the updated behavior instance and the updated global patrol
waypoint counter. `AIEnemy::attack` has an empty body, so the attack
invocations inside `AttackBehavior` and `BerserkBehavior` change nothing. -/
def execute (b : Behavior) (e : AIEnemy) (deltaTime : ℚ) (cw : ℕ) :
    AIEnemy × Behavior × ℕ :=
  match b.kind with
  | .patrol =>
      let r := e.patrol b.waypoints deltaTime cw
      (r.1, b, r.2)
  | .chase =>
      (if e.hasTarget then e.moveTowards e.targetX e.targetY deltaTime else e, b, cw)
  | .attack =>
      let t := b.lastAttackTime + deltaTime
      if attackCooldown ≤ t then (e, { b with lastAttackTime := 0 }, cw)
      else (e, { b with lastAttackTime := t }, cw)
  | .flee =>
      (if e.hasTarget then e.flee e.targetX e.targetY deltaTime else e, b, cw)
  | .defend =>
      let t := b.defendTimer + deltaTime
      let e1 := { e with speed := e.speed * 0.5 }
      if defendDuration ≤ t then (e1, { b with defendTimer := 0 }, cw)
      else (e1, { b with defendTimer := t }, cw)
  | .berserk =>
      let e1 := { e with speed := e.speed * 1.5 }
      if e1.hasTarget then (e1.moveTowards e1.targetX e1.targetY deltaTime, b, cw)
      else (e1, b, cw)

/-- `AIEnemy::update` (strategy.h lines 49-53): run the current behavior's
`execute` only when its `canExecute` accepts; otherwise do nothing. -/
def AIEnemy.update (e : AIEnemy) (deltaTime : ℚ) (cw : ℕ) : AIEnemy × ℕ :=
  match e.currentBehavior with
  | none => (e, cw)
  | some b =>
    if canExecute b.kind e then
      let r := execute b e deltaTime cw
      ({ r.1 with currentBehavior := some r.2.1 }, r.2.2)
    else (e, cw)

/-- The order in which `initializeBehaviors` (strategy.h lines 304-319)
fills `availableBehaviors` — the order `selectBestBehavior`'s loop
actually visits the candidates in. -/
def behaviorOrder : List BKind := [.patrol, .chase, .attack, .flee, .defend, .berserk]

/-- The loop body of `StrategyAIController::selectBestBehavior`
(strategy.h lines 334-365): for each candidate in list order whose
`canExecute` accepts and whose name differs from the current behavior's
name, the `if/else-if` chain installs a fresh instance of the matching
kind and breaks — except that the chain has no branch for `"巡逻"`
(patrol), so an eligible differing patrol candidate falls through and the
loop continues; an eligible candidate with the same name also continues
the loop, because the `break` statements sit inside the chain's branches. -/
def selectLoop (e : AIEnemy) : List BKind → AIEnemy
  | [] => e
  | k :: rest =>
    if canExecute k e then
      if getBehaviorName k ≠ e.getCurrentBehaviorName then
        match k with
        | .flee => e.setBehavior (freshBehavior .flee)
        | .berserk => e.setBehavior (freshBehavior .berserk)
        | .attack => e.setBehavior (freshBehavior .attack)
        | .defend => e.setBehavior (freshBehavior .defend)
        | .chase => e.setBehavior (freshBehavior .chase)
        | .patrol => selectLoop e rest
      else selectLoop e rest
    else selectLoop e rest

/-- `StrategyAIController::selectBestBehavior` (strategy.h lines 334-365). -/
def selectBestBehavior (e : AIEnemy) : AIEnemy := selectLoop e behaviorOrder

/-- `StrategyAIController` (strategy.h lines 291-302): the re-evaluation
interval and accumulator (`controlledEnemy` is passed explicitly). -/
structure StrategyAIController where
  behaviorUpdateInterval : ℚ
  timeSinceLastUpdate : ℚ
deriving DecidableEq

/-- `StrategyAIController::update` (strategy.h lines 321-332): accumulate
the frame time; once it reaches the interval, run `selectBestBehavior` and
reset the accumulator; then in every call run `AIEnemy::update`. -/
def StrategyAIController.update (ctrl : StrategyAIController) (e : AIEnemy)
    (deltaTime : ℚ) (cw : ℕ) : StrategyAIController × AIEnemy × ℕ :=
  let acc := ctrl.timeSinceLastUpdate + deltaTime
  let doSelect : Bool := decide (ctrl.behaviorUpdateInterval ≤ acc)
  let e1 := if doSelect then selectBestBehavior e else e
  let acc1 := if doSelect then 0 else acc
  let r := e1.update deltaTime cw
  ({ ctrl with timeSinceLastUpdate := acc1 }, r.1, r.2)

/-- The priority order stated by the comment inside `selectBestBehavior`
(strategy.h line 336, "逃跑 > 狂暴 > 攻击 > 防御 > 追击 > 巡逻") and by the
specification (§4.2): Flee > Berserk > Attack > Defend > Chase > Patrol. -/
def specPriorityOrder : List BKind := [.flee, .berserk, .attack, .defend, .chase, .patrol]

/-- The highest-priority eligible behavior under the documented priority
order. -/
def specHighestEligible (e : AIEnemy) : Option BKind :=
  specPriorityOrder.find? (fun k => canExecute k e)

end StrategyPattern

/-! ### Concrete scenario instances used by the theorems below -/

namespace StatePattern

/-- A character standing in the Jumping state at ground height with the
full initial jump velocity, as produced by `JumpingState::onEnter`. -/
def jumpChar : StateCharacter :=
  { charName := "j", x := 0, y := 0, health := 100, maxHealth := 100,
    moveSpeed := 0, isGrounded := false, jumpVelocity := 300,
    mana := 50, maxMana := 50, currentState := some .jumping,
    attackTimer := 0, castTimer := 0 }

/-- An idle character whose mana (5) is below the cast cost of 10. -/
def CI6 : StateCharacter :=
  { charName := "c6", x := 0, y := 0, health := 100, maxHealth := 100,
    moveSpeed := 0, isGrounded := true, jumpVelocity := 0,
    mana := 5, maxMana := 50, currentState := some .idle,
    attackTimer := 0, castTimer := 0 }

/-- An idle character with mana 20, below the regeneration cap of 50. -/
def CW7 : StateCharacter :=
  { charName := "c7", x := 0, y := 0, health := 100, maxHealth := 100,
    moveSpeed := 0, isGrounded := true, jumpVelocity := 0,
    mana := 20, maxMana := 50, currentState := some .idle,
    attackTimer := 0, castTimer := 0 }

/-- An airborne character midway through an attack started in the air. -/
def CA10 : StateCharacter :=
  { charName := "c10", x := 0, y := 10, health := 100, maxHealth := 100,
    moveSpeed := 0, isGrounded := false, jumpVelocity := -100,
    mana := 50, maxMana := 50, currentState := some .attacking,
    attackTimer := 0, castTimer := 0 }

end StatePattern

namespace StrategyPattern

/-- A freshly constructed patrol behavior, as installed by
`initializeBehaviors`. -/
def patrolB0 : Behavior := freshBehavior .patrol

/-- A freshly constructed flee behavior. -/
def fleeB0 : Behavior := freshBehavior .flee

/-- A freshly constructed defend behavior. -/
def defendB0 : Behavior := freshBehavior .defend

/-- An enemy at 15% health (Flee and Berserk eligible) currently
patrolling, with a target 100 units away — beyond the attack range 30. -/
def E1 : AIEnemy :=
  { enemyName := "e1", x := 0, y := 0, health := 15, maxHealth := 100, speed := 50,
    detectionRange := 100, attackRange := 30, targetX := 100, targetY := 0,
    hasTarget := true, currentBehavior := some patrolB0 }

/-- An enemy at 15% health with no target, currently fleeing — Flee is the
highest-priority eligible behavior under the documented priority order. -/
def E2 : AIEnemy :=
  { enemyName := "e2", x := 0, y := 0, health := 15, maxHealth := 100, speed := 50,
    detectionRange := 100, attackRange := 30, targetX := 0, targetY := 0,
    hasTarget := false, currentBehavior := some fleeB0 }

/-- An enemy at 70% health whose current behavior is Defend — Defend's
eligibility window is 30%-60%, so `canExecute` rejects it here. -/
def E3 : AIEnemy :=
  { enemyName := "e3", x := 0, y := 0, health := 70, maxHealth := 100, speed := 100,
    detectionRange := 100, attackRange := 30, targetX := 0, targetY := 0,
    hasTarget := false, currentBehavior := some defendB0 }

/-- A controller with the default 1.0 re-evaluation interval and a fresh
accumulator. -/
def ctrl3 : StrategyAIController :=
  { behaviorUpdateInterval := 1, timeSinceLastUpdate := 0 }

/-- An enemy at 50% health (Defend eligible) currently defending. -/
def E8 : AIEnemy :=
  { enemyName := "e8", x := 0, y := 0, health := 50, maxHealth := 100, speed := 100,
    detectionRange := 100, attackRange := 30, targetX := 0, targetY := 0,
    hasTarget := false, currentBehavior := some defendB0 }

/-- A healthy enemy sitting exactly on the first default waypoint (0,0),
currently patrolling. -/
def E9 : AIEnemy :=
  { enemyName := "e9", x := 0, y := 0, health := 100, maxHealth := 100, speed := 50,
    detectionRange := 100, attackRange := 30, targetX := 0, targetY := 0,
    hasTarget := false, currentBehavior := some patrolB0 }

end StrategyPattern

/-! ### Helper lemmas -/

/-- `ratSqrt` is exact on perfect squares of naturals. -/
lemma ratSqrt_sq_nat (n : ℕ) : ratSqrt (((n * n : ℕ) : ℚ)) = n := by
  unfold ratSqrt
  rw [Rat.num_natCast, Rat.den_natCast, Int.toNat_natCast, Nat.sqrt_eq, Nat.sqrt_one]
  norm_num

lemma ratSqrt_10000 : ratSqrt (10000 : ℚ) = 100 := by
  have h := ratSqrt_sq_nat 100
  norm_num at h
  exact h

lemma ratSqrt_zero : ratSqrt (0 : ℚ) = 0 := by
  have h := ratSqrt_sq_nat 0
  norm_num at h
  exact h

namespace StatePattern

lemma update_jumping (c : StateCharacter) (dt : ℚ)
    (hst : c.currentState = some .jumping) :
    update c dt = jumpingUpdate c dt := by
  simp [update, hst]

lemma jumpingUpdate_air (c : StateCharacter) (dt : ℚ)
    (hpos : 0 < c.y + (c.jumpVelocity + gravity * dt) * dt) :
    jumpingUpdate c dt =
      { c with jumpVelocity := c.jumpVelocity + gravity * dt,
               y := c.y + (c.jumpVelocity + gravity * dt) * dt } := by
  have h : ¬(c.y + (c.jumpVelocity + gravity * dt) * dt ≤ 0) := not_le.mpr hpos
  simp [jumpingUpdate, h]

lemma jumpingUpdate_land (c : StateCharacter) (dt : ℚ)
    (hst : c.currentState = some .jumping)
    (hle : c.y + (c.jumpVelocity + gravity * dt) * dt ≤ 0) :
    jumpingUpdate c dt =
      { c with jumpVelocity := 0, y := 0, isGrounded := true,
               moveSpeed := 0, currentState := some .idle } := by
  norm_num +decide [jumpingUpdate, hle, setState, lookupState, canTransitionTo,
    onExit, onEnter, hst]

end StatePattern

/-! ### Claim theorems -/

namespace StatePattern

/-- C4: `setState(name)` runs the exit-hook → swap → enter-hook sequence
exactly when `name` is a registered state name and either no current state
exists or the current state's `canTransitionTo(name)` accepts; in every
other case the call returns the character unchanged — a silent no-op that
leaves the active state and its timers (`attackTimer`, `castTimer`)
untouched and, being a total function, surfaces no error. -/
theorem setState_spec (c : StateCharacter) (stateName : String) :
    setState c stateName =
      if stateGuard c stateName then (lookupState stateName).elim c (transitionTo c)
      else c := by
  unfold setState stateGuard transitionTo
  cases h : lookupState stateName with
  | none => simp
  | some t =>
    cases hc : c.currentState with
    | none => simp
    | some cur =>
      by_cases hg : canTransitionTo cur stateName
      · simp [hg]
      · simp [hg]

/-- C6: entering the Casting state with mana below the cast cost of 10
immediately reverts the character to Idle within the same `setState` call,
and the mana pool is not changed at all. -/
theorem casting_insufficient (c : StateCharacter) (hst : c.currentState = some .idle)
    (hm : c.mana < manaCost) :
    (setState c "casting").currentState = some .idle ∧
    (setState c "casting").mana = c.mana := by
  norm_num +decide [setState, lookupState, hst, canTransitionTo, onExit, onEnter, hm]

/-- C6 witness: a character with mana 5 in Idle stays in Idle with mana 5
after `setState("casting")`. -/
theorem casting_insufficient_witness :
    (setState CI6 "casting").currentState = some .idle ∧
    (setState CI6 "casting").mana = CI6.mana :=
  casting_insufficient CI6 rfl (by decide)

/-- C5: while every prefix of the integrated trajectory stays strictly
above ground, iterated `update` from the Jumping state reproduces exactly
the direct integration `v = v + g*dt`, `y = y + v*dt`, and the first step
whose integrated height is `≤ 0` clamps `y` to 0, sets the grounded flag,
zeroes the vertical velocity and moves to Idle — exactly once, with no
overshoot bounce. -/
theorem jumping_matches_integration (dts : List ℚ) (c : StateCharacter)
    (hst : c.currentState = some .jumping)
    (hpos : ∀ k, k < dts.length →
      0 < (jumpIntegration c.y c.jumpVelocity (dts.take (k+1))).1) :
    (applyUpdates c dts).currentState = some .jumping ∧
    (applyUpdates c dts).y = (jumpIntegration c.y c.jumpVelocity dts).1 ∧
    (applyUpdates c dts).jumpVelocity = (jumpIntegration c.y c.jumpVelocity dts).2 ∧
    ∀ dt, (jumpIntegration c.y c.jumpVelocity (dts ++ [dt])).1 ≤ 0 →
      (applyUpdates c (dts ++ [dt])).currentState = some .idle ∧
      (applyUpdates c (dts ++ [dt])).y = 0 ∧
      (applyUpdates c (dts ++ [dt])).isGrounded = true ∧
      (applyUpdates c (dts ++ [dt])).jumpVelocity = 0 := by
  induction dts generalizing c with
  | nil =>
    refine ⟨hst, rfl, rfl, ?_⟩
    intro dt hdt
    have hle : c.y + (c.jumpVelocity + gravity * dt) * dt ≤ 0 := by
      simpa [jumpIntegration] using hdt
    have h1 : applyUpdates c ([] ++ [dt]) = update c dt := rfl
    rw [h1, update_jumping c dt hst, jumpingUpdate_land c dt hst hle]
    exact ⟨rfl, rfl, rfl, rfl⟩
  | cons dt0 rest ih =>
    have h0 : 0 < c.y + (c.jumpVelocity + gravity * dt0) * dt0 := by
      have h := hpos 0 (by simp)
      simpa [jumpIntegration] using h
    have hstep : update c dt0 =
        { c with jumpVelocity := c.jumpVelocity + gravity * dt0,
                 y := c.y + (c.jumpVelocity + gravity * dt0) * dt0 } := by
      rw [update_jumping c dt0 hst, jumpingUpdate_air c dt0 h0]
    have hst1 : (update c dt0).currentState = some .jumping := by
      rw [hstep]
      exact hst
    have hint : ∀ l, jumpIntegration c.y c.jumpVelocity (dt0 :: l) =
        jumpIntegration (update c dt0).y (update c dt0).jumpVelocity l := by
      intro l
      rw [hstep]
      rfl
    have hpos1 : ∀ k, k < rest.length →
        0 < (jumpIntegration (update c dt0).y (update c dt0).jumpVelocity
              (rest.take (k+1))).1 := by
      intro k hk
      have h := hpos (k+1) (by simpa using Nat.succ_lt_succ hk)
      rw [List.take_succ_cons, hint] at h
      exact h
    obtain ⟨ha, hb, hc, hd⟩ := ih (update c dt0) hst1 hpos1
    have happ : applyUpdates c (dt0 :: rest) = applyUpdates (update c dt0) rest := rfl
    refine ⟨happ ▸ ha, ?_, ?_, ?_⟩
    · rw [happ, hb, ← hint]
    · rw [happ, hc, ← hint]
    · intro dt hdt
      have happ2 : applyUpdates c ((dt0 :: rest) ++ [dt]) =
          applyUpdates (update c dt0) (rest ++ [dt]) := rfl
      have hdt1 : (jumpIntegration (update c dt0).y (update c dt0).jumpVelocity
          (rest ++ [dt])).1 ≤ 0 := by
        rw [← hint]
        simpa using hdt
      obtain ⟨p1, p2, p3, p4⟩ := hd dt hdt1
      exact ⟨happ2 ▸ p1, happ2 ▸ p2, happ2 ▸ p3, happ2 ▸ p4⟩

/-- C5 witness: from `V0 = 300` at ground height, two steps of `dt = 1/10`
give `y = 45` in Jumping, and a further `dt = 2` step (integrated height
`-1555 ≤ 0`) lands: Idle, `y = 0`, grounded. -/
theorem jumping_matches_integration_witness :
    (applyUpdates jumpChar [1/10, 1/10]).currentState = some .jumping ∧
    (applyUpdates jumpChar [1/10, 1/10]).y = 45 ∧
    (applyUpdates jumpChar [1/10, 1/10, 2]).currentState = some .idle ∧
    (applyUpdates jumpChar [1/10, 1/10, 2]).y = 0 ∧
    (applyUpdates jumpChar [1/10, 1/10, 2]).isGrounded = true := by
  have h := jumping_matches_integration [1/10, 1/10] jumpChar rfl
    (by intro k hk; norm_num at hk; interval_cases k <;>
        norm_num [jumpIntegration, jumpChar, gravity])
  have h4 := h.2.2.2 2 (by norm_num [jumpIntegration, jumpChar, gravity])
  refine ⟨h.1, ?_, h4.1, h4.2.1, h4.2.2.1⟩
  rw [h.2.1]
  norm_num [jumpIntegration, jumpChar, gravity]

/-- C10: when an attack's accumulated time reaches the 0.5 duration while
the character is airborne, `update` transitions to Jumping, whose enter
hook sets the grounded flag false and resets the vertical velocity to the
full jump force of +300 — relaunching the character upward regardless of
the velocity it fell with. -/
theorem attack_air_relaunch (c : StateCharacter) (dt : ℚ)
    (hst : c.currentState = some .attacking) (hg : c.isGrounded = false)
    (hdur : attackDuration ≤ c.attackTimer + dt) :
    (update c dt).currentState = some .jumping ∧
    (update c dt).jumpVelocity = jumpForce ∧
    (update c dt).isGrounded = false := by
  norm_num +decide [update, hst, attackingUpdate, hg, hdur, setState, lookupState,
    canTransitionTo, onExit, onEnter]

/-- C10 witness: an airborne attacking character falling at velocity -100
is relaunched at +300 when the attack ends after `dt = 1/2`. -/
theorem attack_air_relaunch_witness :
    (update CA10 (1/2)).currentState = some .jumping ∧
    (update CA10 (1/2)).jumpVelocity = jumpForce ∧
    (update CA10 (1/2)).isGrounded = false :=
  attack_air_relaunch CA10 (1/2) rfl rfl (by norm_num [attackDuration, CA10])

/-- C7 counterexample: with mana 20 (below the cap of 50) and the driver
cadence `dt = 0.016 = 2/125`, an Idle `update` adds
`static_cast<int>(5 * 0.016) = 0` mana — mana does not strictly increase. -/
theorem idle_regen_no_increase_counterexample :
    CW7.mana = 20 ∧ CW7.mana < 50 ∧ (0 : ℚ) < 2/125 ∧
    (update CW7 (2/125)).mana = 20 := by
  norm_num [update, CW7, idleUpdate, cppTrunc, setMana]

/-- C7 (amended): an Idle `update` adds `cppTrunc (5 * dt)` mana (clamped
to `[0, maxMana]`) when mana is below 50 and nothing otherwise; in
particular, for every `0 ≤ dt < 1/5` — the demonstration cadence 0.016
included — the truncated increment is zero and mana is unchanged. -/
theorem idle_regen (c : StateCharacter) (dt : ℚ) (hst : c.currentState = some .idle) :
    (update c dt).mana =
      (if c.mana < 50 then max 0 (min c.maxMana (c.mana + cppTrunc (5 * dt))) else c.mana) ∧
    (0 ≤ dt → dt < 1/5 → 0 ≤ c.mana → c.mana ≤ c.maxMana → (update c dt).mana = c.mana) := by
  constructor
  · by_cases h : c.mana < 50
    · simp [update, hst, idleUpdate, setMana, h]
    · simp [update, hst, idleUpdate, h]
  · intro h0 h1 hm0 hm1
    have ht : cppTrunc (5 * dt) = 0 := by
      unfold cppTrunc
      rw [if_pos (by linarith)]
      rw [Int.floor_eq_zero_iff]
      constructor
      · linarith
      · linarith
    by_cases h : c.mana < 50
    · simp [update, hst, idleUpdate, setMana, h, ht]
      omega
    · simp [update, hst, idleUpdate, h]

/-- C7 witness: the regeneration formula evaluated at `dt = 1/5` on the
mana-20 idle character. -/
theorem idle_regen_witness :
    (update CW7 (1/5)).mana =
      (if CW7.mana < 50 then max 0 (min CW7.maxMana (CW7.mana + cppTrunc (5 * (1/5))))
       else CW7.mana) :=
  (idle_regen CW7 (1/5) rfl).1

end StatePattern

namespace StrategyPattern

/-- C1: the loop of `selectBestBehavior` visits the candidates in the
order `initializeBehaviors` built the list — Patrol, Chase, Attack, Flee,
Defend, Berserk — not in the priority order Flee > Berserk > Attack >
Defend > Chase > Patrol that the comment above the loop documents. On the
enemy `E1` (15% health, current behavior Patrol, target 100 units away),
the documented priority selects Flee, but the code switches to Chase. -/
theorem select_priority_divergence :
    (selectBestBehavior E1).currentBehavior.map Behavior.kind = some BKind.chase ∧
    specHighestEligible E1 = some BKind.flee ∧
    canExecute BKind.flee E1 = true ∧
    BKind.chase ≠ BKind.flee := by
  refine ⟨?_, ?_, ?_, by decide⟩
  · norm_num +decide [selectBestBehavior, behaviorOrder, selectLoop, canExecute, E1,
      patrolB0, freshBehavior, AIEnemy.getDistanceToTarget,
      AIEnemy.getCurrentBehaviorName, getBehaviorName, healthPercent,
      AIEnemy.setBehavior, ratSqrt_10000]
  · norm_num +decide [specHighestEligible, specPriorityOrder, List.find?, canExecute,
      E1, patrolB0, AIEnemy.getDistanceToTarget, healthPercent, ratSqrt_10000]
  · norm_num [canExecute, E1, patrolB0, healthPercent]

/-- C2: on the enemy `E2` (15% health, no target) the current behavior
Flee is itself the highest-priority eligible behavior under the documented
priority order, yet `selectBestBehavior` replaces it with a fresh Berserk
instance: an eligible candidate whose name equals the current behavior's
does not break the loop, so the scan continues past Flee to Berserk. -/
theorem select_stability_divergence :
    E2.currentBehavior.map Behavior.kind = some BKind.flee ∧
    specHighestEligible E2 = some BKind.flee ∧
    (selectBestBehavior E2).currentBehavior.map Behavior.kind = some BKind.berserk ∧
    BKind.berserk ≠ BKind.flee := by
  refine ⟨by norm_num [E2, fleeB0, freshBehavior], ?_, ?_, by decide⟩
  · norm_num +decide [specHighestEligible, specPriorityOrder, List.find?, canExecute,
      E2, fleeB0, AIEnemy.getDistanceToTarget, healthPercent]
  · norm_num +decide [selectBestBehavior, behaviorOrder, selectLoop, canExecute, E2,
      fleeB0, freshBehavior, AIEnemy.getDistanceToTarget,
      AIEnemy.getCurrentBehaviorName, getBehaviorName, healthPercent,
      AIEnemy.setBehavior]

/-- C3 counterexample: on the enemy `E3` (70% health, current behavior
Defend, whose `canExecute` window is 30%-60%) a controller `update` with
`dt = 1/2` performs no selection (accumulator 1/2 < interval 1) and does
NOT delegate to the active behavior's `execute`: the enemy comes back
entirely unchanged with speed 100, whereas Defend's `execute` — had it
been called as the claim states — would have halved the speed to 50. -/
theorem update_skips_execute_counterexample :
    (StrategyAIController.update ctrl3 E3 (1/2) 0).2.1 = E3 ∧
    ((StrategyAIController.update ctrl3 E3 (1/2) 0).2.1).speed = 100 ∧
    ((execute defendB0 E3 (1/2) 0).1).speed = 50 ∧
    (100 : ℚ) ≠ 50 := by
  norm_num +decide [StrategyAIController.update, ctrl3, E3, defendB0, freshBehavior,
    AIEnemy.update, canExecute, healthPercent, execute, defendDuration]

/-- C3 (amended): `StrategyAIController::update(dt)` adds `dt` to the
accumulator; once the accumulator reaches the 1.0 interval it runs
`selectBestBehavior` and resets the accumulator to zero; it then delegates
to the active behavior's `execute(dt)` only when the behavior's
`canExecute` accepts the entity — otherwise the entity is left untouched. -/
theorem strategy_update_characterization (ctrl : StrategyAIController) (e : AIEnemy)
    (deltaTime : ℚ) (cw : ℕ) :
    (StrategyAIController.update ctrl e deltaTime cw =
      (let acc := ctrl.timeSinceLastUpdate + deltaTime
       let doSelect : Bool := decide (ctrl.behaviorUpdateInterval ≤ acc)
       let e1 := if doSelect then selectBestBehavior e else e
       let r := AIEnemy.update e1 deltaTime cw
       ({ ctrl with timeSinceLastUpdate := if doSelect then 0 else acc }, r.1, r.2))) ∧
    (∀ b, e.currentBehavior = some b → canExecute b.kind e = false →
      AIEnemy.update e deltaTime cw = (e, cw)) := by
  constructor
  · rfl
  · intro b hb hcan
    simp [AIEnemy.update, hb, hcan]

/-- C3 witness: the non-delegation clause applied to `E3` and its Defend
behavior at `dt = 1/2`. -/
theorem strategy_update_characterization_witness :
    AIEnemy.update E3 (1/2) 0 = (E3, 0) :=
  (strategy_update_characterization ctrl3 E3 (1/2) 0).2 defendB0 rfl
    (by norm_num [canExecute, healthPercent, E3, defendB0, freshBehavior])

/-- C8 counterexample: two Defend executions of `dt = 1/2` each — total
elapsed time 1, strictly inside a single un-elapsed defend duration of
2 — leave the enemy at speed 25: the speed was halved twice within one
duration, not "once per elapsed duration". -/
theorem defend_double_halving_counterexample :
    ((E8.update (1/2) 0).1.update (1/2) 0).1.speed = 25 ∧
    ((E8.update (1/2) 0).1.update (1/2) 0).1.currentBehavior.map Behavior.defendTimer
      = some 1 ∧
    (1 : ℚ) < defendDuration ∧
    ¬((25 : ℚ) = 100 ∨ (25 : ℚ) = 50) := by
  norm_num +decide [AIEnemy.update, E8, defendB0, freshBehavior, canExecute,
    healthPercent, execute, defendDuration]

/-- C8 (amended): every single `execute` of a Defend behavior multiplies
the current speed by 0.5 (so `n` calls divide it by `2^n`) and leaves the
position alone; when the accumulated timer reaches the 2.0 duration only
the timer is reset to zero — the speed reduction is never restored. -/
theorem defend_execute_halves (b : Behavior) (e : AIEnemy) (deltaTime : ℚ) (cw : ℕ)
    (hk : b.kind = BKind.defend) :
    ((execute b e deltaTime cw).1).speed = e.speed * 0.5 ∧
    ((execute b e deltaTime cw).2.1).defendTimer =
      (if defendDuration ≤ b.defendTimer + deltaTime then 0
       else b.defendTimer + deltaTime) ∧
    ((execute b e deltaTime cw).1).x = e.x ∧
    ((execute b e deltaTime cw).1).y = e.y := by
  by_cases h : defendDuration ≤ b.defendTimer + deltaTime
  · simp [execute, hk, h]
  · simp [execute, hk, h]

/-- C8 witness: one Defend execution on the speed-100 enemy `E8`. -/
theorem defend_execute_halves_witness :
    ((execute defendB0 E8 (1/2) 0).1).speed = E8.speed * 0.5 :=
  (defend_execute_halves defendB0 E8 (1/2) 0 rfl).1

/-- C9 counterexample: patrolling once on the first waypoint advances the
shared static counter to 1; after switching the behavior away and back to
a freshly created Patrol, the next patrol step steers toward waypoint 1 =
(100, 0) and moves the enemy to x = 50 — while the same step executed with
a fresh counter 0 (the "starts fresh" reading of the claim) would target
waypoint 0 = (0, 0) and not move at all. -/
theorem patrol_static_persists_counterexample :
    (execute patrolB0 E9 1 0).2.2 = 1 ∧
    (execute (freshBehavior .patrol)
      (((execute patrolB0 E9 1 0).1.setBehavior (freshBehavior .chase)).setBehavior
        (freshBehavior .patrol)) 1 (execute patrolB0 E9 1 0).2.2).1.x = 50 ∧
    (execute (freshBehavior .patrol)
      (((execute patrolB0 E9 1 0).1.setBehavior (freshBehavior .chase)).setBehavior
        (freshBehavior .patrol)) 1 0).1.x = 0 := by
  norm_num +decide [execute, E9, patrolB0, freshBehavior, AIEnemy.patrol,
    AIEnemy.moveTowards, defaultWaypoints, List.getD, AIEnemy.setBehavior,
    ratSqrt_zero, ratSqrt_10000]

/-- C9 (amended): behavior instances installed on a switch are freshly
constructed with their per-behavior timers at zero, but the patrol
waypoint index is a single function-local static counter shared by every
entity and every Patrol instance: a patrol step either keeps it or
advances it by one, and no switch or activation ever resets it. -/
theorem patrol_counter_monotone (e : AIEnemy) (wps : List (ℚ × ℚ))
    (deltaTime : ℚ) (cw : ℕ) :
    ((e.patrol wps deltaTime cw).2 = cw ∨ (e.patrol wps deltaTime cw).2 = cw + 1) ∧
    (∀ k, (freshBehavior k).lastAttackTime = 0 ∧ (freshBehavior k).defendTimer = 0) := by
  constructor
  · cases wps with
    | nil => exact Or.inl rfl
    | cons p ps =>
      simp only [AIEnemy.patrol]
      split_ifs with h
      · exact Or.inr rfl
      · exact Or.inl rfl
  · intro k
    exact ⟨rfl, rfl⟩

end StrategyPattern
